import Mathlib

/-!
Shallow embedding of the SkillSwap backend.

The embedding covers the two authentication subsystems of the repository:

* `backend/server.js` — Express handlers over a managed identity store
  (signup with compensating delete, login, get profile, update profile,
  bearer-token extraction).  Each external store call is awaited and can
  either throw (the awaited promise rejects), return an error object, or
  succeed; an `Outcome` oracle field per call site injects that choice,
  while the successful semantics (row lookup, insert, update, delete) is
  computed from an explicit `Store` state.  Handlers return an
  `Except String Response`: `Except.error` is a JavaScript exception that
  escaped the handler body, `Except.ok` is a JSON response that was sent.
  The `try/catch` wrapping a handler body is `catchBoundary`, which turns
  any escaped exception into a 500 response, exactly as the source's
  `catch` blocks do.  Handlers additionally return the final `Store` and
  a trace of the store calls they issued.

* `backend/controllers/userControllers.js` — legacy handlers over a raw
  SQL pool and bcrypt.  `pg` calls throw on failure (they have no error
  field), so their oracle type `PgOut` has only throw/succeed.  bcrypt
  and jsonwebtoken are external libraries and are modelled abstractly:
  `bcryptHash` is an injective hash, `bcryptCompare` compares by hashing,
  `jwtSign` deterministically combines the id and the secret.
-/

namespace SkillSwap

/-- JavaScript truthiness of an optional string value: `undefined`/`null`
and the empty string are falsy, every other string is truthy. -/
def truthy : Option String → Bool
  | none => false
  | some s => s ≠ ""

/-- The JavaScript expression `v || null`: keep a truthy string, collapse
a falsy one to null. -/
def orNull (v : Option String) : Option String :=
  if truthy v then v else none

/-- JavaScript `s.split(' ')` (split on every single space, keeping empty
pieces), on the character list of the string. -/
def splitChars : List Char → List (List Char)
  | [] => [[]]
  | c :: rest =>
    if c = ' ' then [] :: splitChars rest
    else
      match splitChars rest with
      | [] => [[c]]
      | w :: ws => (c :: w) :: ws

/-- JavaScript `s.split(' ')` as a function on strings. -/
def jsSplitSpace (s : String) : List String :=
  (splitChars s.data).map (fun cs => String.mk cs)

/-- An auth identity held by the external identity store:
id, email and the provider-managed credential. -/
structure Identity where
  id : String
  email : String
  password : String
  deriving Repr, DecidableEq

/-- A row of the `profiles` table, as created and mutated by the handlers
in `server.js`. -/
structure Profile where
  id : String
  username : Option String
  full_name : Option String
  avatar_url : Option String
  role : Option String
  updated_at : Option String
  deriving Repr, DecidableEq

/-- A session issued by the identity store on sign-in. -/
structure Session where
  access_token : String
  refresh_token : String
  deriving Repr, DecidableEq

/-- The state of the external store: auth identities plus the `profiles`
table. -/
structure Store where
  identities : List Identity
  profiles : List Profile
  deriving Repr, DecidableEq

/-- Outcome of one awaited supabase call, injected by an oracle:
the promise rejects (`othrow`), the call returns an error object
(`oerr`), or it succeeds (`ook`) with semantics computed from the
`Store`. -/
inductive Outcome where
  | othrow (e : String)
  | oerr (msg : String)
  | ook
  deriving Repr, DecidableEq

/-- True when the call outcome is not a thrown exception. -/
def nothrow : Outcome → Bool
  | .othrow _ => false
  | _ => true

/-- A row of the legacy `users` table (raw SQL path). -/
structure UserRow where
  id : Nat
  name : String
  email : String
  password : String
  skills : String
  deriving Repr, DecidableEq

/-- The projection of a user row returned by `GET /api/users`:
exactly id, name and skills. -/
structure PublicUser where
  id : Nat
  name : String
  skills : String
  deriving Repr, DecidableEq

/-- JSON bodies the handlers can send. -/
inductive Body where
  | errB (e : String)
  | msgB (m : String)
  | signupB (message : String) (userId : String) (userEmail : String)
      (session : Option Session) (profile : Option Profile)
  | loginB (session : Option Session) (profile : Option Profile)
  | profileB (profile : Option Profile)
  | tokenUserB (token : String) (user : UserRow)
  | usersB (rows : List PublicUser)
  | userRowB (u : UserRow)
  deriving Repr, DecidableEq

/-- Whether a body carries a session object. -/
def hasSession : Body → Bool
  | .signupB _ _ _ (some _) _ => true
  | .loginB (some _) _ => true
  | _ => false

/-- The password field of the user object inside a legacy login response
body, when there is one. -/
def bodyUserPassword : Body → Option String
  | .tokenUserB _ u => some u.password
  | _ => none

/-- An HTTP response: status code and JSON body. -/
structure Response where
  status : Nat
  body : Body
  deriving Repr, DecidableEq

/-- A store call issued by a handler, recorded in the effect trace. -/
inductive Eff where
  | createUserEff
  | insertProfileEff
  | deleteUserEff (id : String)
  | signInEff
  | getUserEff (token : String)
  | selectProfileEff (id : String)
  | updateProfileEff (id : String)
  deriving Repr, DecidableEq

/-- Result of running a handler body: an escaped JavaScript exception or
a sent response, together with the final store state and the trace of
store calls issued. -/
abbrev HandlerOut := Except String Response × Store × List Eff

/-- The `try { ... } catch (err) { res.status(500).json(...) }` boundary
wrapped around each handler in `server.js`: an escaped exception becomes
a 500 response with a generic message. -/
def catchBoundary : Except String Response → Except String Response
  | .error _ => .ok ⟨500, .errB "internal server error"⟩
  | .ok r => .ok r

/-- Lookup of `select('*').eq('id', uid)` in the profiles table: the
first row whose id matches. -/
def findProfile (s : Store) (uid : String) : Option Profile :=
  s.profiles.find? (fun p => p.id == uid)

/-- Insertion of a new row into the profiles table. -/
def insertProfileRow (s : Store) (p : Profile) : Store :=
  { s with profiles := p :: s.profiles }

/-- `auth.admin.deleteUser(uid)`: remove the identity with that id. -/
def deleteIdentity (s : Store) (uid : String) : Store :=
  { s with identities := s.identities.filter (fun i => !(i.id == uid)) }

/-- Set one column of a profile row by column name; unknown names leave
the row unchanged (the update object never contains one, see
`buildUpdates`). -/
def setField (p : Profile) (k : String) (v : Option String) : Profile :=
  if k = "username" then { p with username := v }
  else if k = "full_name" then { p with full_name := v }
  else if k = "avatar_url" then { p with avatar_url := v }
  else if k = "role" then { p with role := v }
  else if k = "updated_at" then { p with updated_at := v }
  else p

/-- Read one column of a profile row by column name. -/
def fieldGet (k : String) (p : Profile) : Option String :=
  if k = "username" then p.username
  else if k = "full_name" then p.full_name
  else if k = "avatar_url" then p.avatar_url
  else if k = "role" then p.role
  else if k = "updated_at" then p.updated_at
  else none

/-- Apply an update object (a list of column/value assignments) to one
profile row, left to right. -/
def applyUpdates (p : Profile) : List (String × Option String) → Profile
  | [] => p
  | (k, v) :: rest => applyUpdates (setField p k v) rest

/-- `update(updates).eq('id', uid)` on the profiles table: every row with
a matching id receives the assignments. -/
def updateProfilesTable (s : Store) (uid : String)
    (ups : List (String × Option String)) : Store :=
  { s with profiles := s.profiles.map (fun p => if p.id == uid then applyUpdates p ups else p) }

/-- Helper `getBearerToken` of `server.js`: take the Authorization header
(defaulting to the empty string), split on single spaces, and return the
second part when there are exactly two parts and the first is the literal
string Bearer; otherwise null. -/
def getBearerToken (authHeader : Option String) : Option String :=
  match jsSplitSpace (authHeader.getD "") with
  | [scheme, tok] => if scheme = "Bearer" then some tok else none
  | _ => none

/-- Request body of `POST /auth/signup`; absent JSON fields are `none`. -/
structure SignupReq where
  email : Option String
  password : Option String
  username : Option String
  full_name : Option String
  avatar_url : Option String
  deriving Repr, DecidableEq

/-- Oracle for the five store calls a signup may issue, plus the fresh id
the identity store assigns and the session sign-in returns. -/
structure SignupOracle where
  create : Outcome
  newId : String
  insert : Outcome
  delete : Outcome
  signIn : Outcome
  session : Option Session
  fetch : Outcome
  deriving Repr, DecidableEq

/-- Body of the `POST /auth/signup` handler (before its try/catch):
validate the three required fields, create the identity, insert the
profile row (with a best-effort compensating `deleteUser` whose own
failure is swallowed by `.catch(() => ...)`), sign in, re-fetch the
profile, and answer 201. -/
def signupInner (req : SignupReq) (ora : SignupOracle) (s : Store) : HandlerOut :=
  if !truthy req.email || !truthy req.password || !truthy req.username then
    (.ok ⟨400, .errB "email, password and username are required"⟩, s, [])
  else
    match ora.create with
    | .othrow e => (.error e, s, [.createUserEff])
    | .oerr m => (.ok ⟨400, .errB m⟩, s, [.createUserEff])
    | .ook =>
      let email := req.email.getD ""
      let password := req.password.getD ""
      let username := req.username.getD ""
      let userId := ora.newId
      let s1 : Store := { s with identities := ⟨userId, email, password⟩ :: s.identities }
      match ora.insert with
      | .othrow e => (.error e, s1, [.createUserEff, .insertProfileEff])
      | .oerr m =>
        let s2 := match ora.delete with
          | .ook => deleteIdentity s1 userId
          | _ => s1
        (.ok ⟨400, .errB m⟩, s2, [.createUserEff, .insertProfileEff, .deleteUserEff userId])
      | .ook =>
        let p : Profile :=
          ⟨userId, some username, orNull req.full_name, orNull req.avatar_url, some "user", none⟩
        let s2 := insertProfileRow s1 p
        match ora.signIn with
        | .othrow e => (.error e, s2, [.createUserEff, .insertProfileEff, .signInEff])
        | .oerr m => (.ok ⟨400, .errB m⟩, s2, [.createUserEff, .insertProfileEff, .signInEff])
        | .ook =>
          match ora.fetch with
          | .othrow e =>
            (.error e, s2,
              [.createUserEff, .insertProfileEff, .signInEff, .selectProfileEff userId])
          | .oerr _ =>
            (.ok ⟨201, .signupB "user created" userId email ora.session none⟩, s2,
              [.createUserEff, .insertProfileEff, .signInEff, .selectProfileEff userId])
          | .ook =>
            (.ok ⟨201, .signupB "user created" userId email ora.session (findProfile s2 userId)⟩,
              s2, [.createUserEff, .insertProfileEff, .signInEff, .selectProfileEff userId])

/-- `POST /auth/signup` with its try/catch boundary. -/
def signupHandler (req : SignupReq) (ora : SignupOracle) (s : Store) : HandlerOut :=
  match signupInner req ora s with
  | (r, st, effs) => (catchBoundary r, st, effs)

/-- Request body of `POST /auth/login`. -/
structure LoginReq where
  email : Option String
  password : Option String
  deriving Repr, DecidableEq

/-- Oracle for the login handler: the sign-in call, the session and user
object it returns on success, and the profile fetch. -/
structure LoginOracle where
  signIn : Outcome
  session : Option Session
  userId : Option String
  fetch : Outcome
  deriving Repr, DecidableEq

/-- Body of the `POST /auth/login` handler: validate both fields, sign in
(401 on store rejection), 500 if the store returns no usable user object,
fetch the profile and answer 200 with session and profile. -/
def loginInner (req : LoginReq) (ora : LoginOracle) (s : Store) : HandlerOut :=
  if !truthy req.email || !truthy req.password then
    (.ok ⟨400, .errB "email and password required"⟩, s, [])
  else
    match ora.signIn with
    | .othrow e => (.error e, s, [.signInEff])
    | .oerr m => (.ok ⟨401, .errB m⟩, s, [.signInEff])
    | .ook =>
      if !truthy ora.userId then
        (.ok ⟨500, .errB "could not get user after sign-in"⟩, s, [.signInEff])
      else
        let uid := ora.userId.getD ""
        match ora.fetch with
        | .othrow e => (.error e, s, [.signInEff, .selectProfileEff uid])
        | .oerr _ =>
          (.ok ⟨200, .loginB ora.session none⟩, s, [.signInEff, .selectProfileEff uid])
        | .ook =>
          (.ok ⟨200, .loginB ora.session (findProfile s uid)⟩, s,
            [.signInEff, .selectProfileEff uid])

/-- `POST /auth/login` with its try/catch boundary. -/
def loginHandler (req : LoginReq) (ora : LoginOracle) (s : Store) : HandlerOut :=
  match loginInner req ora s with
  | (r, st, effs) => (catchBoundary r, st, effs)

/-- Oracle for the authenticated read: the `auth.getUser(token)` call,
the user object it resolves, and the profile fetch. -/
structure AuthedOracle where
  getUser : Outcome
  userId : Option String
  fetch : Outcome
  deriving Repr, DecidableEq

/-- Body of the `GET /auth/profile` handler: 401 without a usable bearer
token, 401 when the token does not resolve to a user, 404 when the
profile fetch fails, else 200 with the profile. -/
def getProfileInner (authHeader : Option String) (ora : AuthedOracle) (s : Store) : HandlerOut :=
  let token := getBearerToken authHeader
  if !truthy token then
    (.ok ⟨401, .errB "missing access token in Authorization header"⟩, s, [])
  else
    let tok := token.getD ""
    match ora.getUser with
    | .othrow e => (.error e, s, [.getUserEff tok])
    | .oerr m => (.ok ⟨401, .errB m⟩, s, [.getUserEff tok])
    | .ook =>
      match ora.userId with
      | none => (.ok ⟨401, .errB "invalid token"⟩, s, [.getUserEff tok])
      | some uid =>
        match ora.fetch with
        | .othrow e => (.error e, s, [.getUserEff tok, .selectProfileEff uid])
        | .oerr m => (.ok ⟨404, .errB m⟩, s, [.getUserEff tok, .selectProfileEff uid])
        | .ook =>
          match findProfile s uid with
          | none =>
            (.ok ⟨404, .errB "profile not found"⟩, s, [.getUserEff tok, .selectProfileEff uid])
          | some p =>
            (.ok ⟨200, .profileB (some p)⟩, s, [.getUserEff tok, .selectProfileEff uid])

/-- `GET /auth/profile` with its try/catch boundary. -/
def getProfileHandler (authHeader : Option String) (ora : AuthedOracle) (s : Store) : HandlerOut :=
  match getProfileInner authHeader ora s with
  | (r, st, effs) => (catchBoundary r, st, effs)

/-- The allow-list of updatable profile fields in `PUT /auth/profile`. -/
def allowedFields : List String := ["username", "full_name", "avatar_url", "role"]

/-- The update object built by the handler loop `for (const k of allowed)
if (k in req.body) updates[k] = req.body[k]`: the body is an association
list of present JSON fields (value `none` is JSON null). -/
def buildUpdates (body : List (String × Option String)) : List (String × Option String) :=
  allowedFields.filterMap (fun k =>
    match body.lookup k with
    | some v => some (k, v)
    | none => none)

/-- Oracle for the authenticated update: token resolution, the update
call and the re-fetch. -/
structure UpdateOracle where
  getUser : Outcome
  userId : Option String
  update : Outcome
  fetch : Outcome
  deriving Repr, DecidableEq

/-- Body of the `PUT /auth/profile` handler: bearer-token resolution as
in the read handler, allow-list filtering of the body, 400 on an empty
effective update, `updated_at` stamped with the current time, store
update, re-fetch and 200. -/
def updateProfileInner (authHeader : Option String) (body : List (String × Option String))
    (now : String) (ora : UpdateOracle) (s : Store) : HandlerOut :=
  let token := getBearerToken authHeader
  if !truthy token then
    (.ok ⟨401, .errB "missing access token in Authorization header"⟩, s, [])
  else
    let tok := token.getD ""
    match ora.getUser with
    | .othrow e => (.error e, s, [.getUserEff tok])
    | .oerr m => (.ok ⟨401, .errB m⟩, s, [.getUserEff tok])
    | .ook =>
      match ora.userId with
      | none => (.ok ⟨401, .errB "invalid token"⟩, s, [.getUserEff tok])
      | some uid =>
        let ups := buildUpdates body
        if ups.isEmpty then
          (.ok ⟨400, .errB "no updatable fields provided"⟩, s, [.getUserEff tok])
        else
          let ups2 := ups ++ [("updated_at", some now)]
          match ora.update with
          | .othrow e => (.error e, s, [.getUserEff tok, .updateProfileEff uid])
          | .oerr m => (.ok ⟨400, .errB m⟩, s, [.getUserEff tok, .updateProfileEff uid])
          | .ook =>
            let s2 := updateProfilesTable s uid ups2
            match ora.fetch with
            | .othrow e =>
              (.error e, s2, [.getUserEff tok, .updateProfileEff uid, .selectProfileEff uid])
            | .oerr _ =>
              (.ok ⟨200, .profileB none⟩, s2,
                [.getUserEff tok, .updateProfileEff uid, .selectProfileEff uid])
            | .ook =>
              (.ok ⟨200, .profileB (findProfile s2 uid)⟩, s2,
                [.getUserEff tok, .updateProfileEff uid, .selectProfileEff uid])

/-- `PUT /auth/profile` with its try/catch boundary. -/
def updateProfileHandler (authHeader : Option String) (body : List (String × Option String))
    (now : String) (ora : UpdateOracle) (s : Store) : HandlerOut :=
  match updateProfileInner authHeader body now ora s with
  | (r, st, effs) => (catchBoundary r, st, effs)

/-- Outcome of one awaited call against the raw SQL pool or bcrypt:
these throw on failure rather than returning an error object. -/
inductive PgOut where
  | pthrow (e : String)
  | pok
  deriving Repr, DecidableEq

/-- Abstract model of `bcrypt.hash(pw, 10)`: an injective hash. -/
def bcryptHash (pw : String) : String := "$2b$10$" ++ pw

/-- Abstract model of `bcrypt.compare(pw, hash)`: true exactly when the
hash is the hash of the password. -/
def bcryptCompare (pw h : String) : Bool := h == bcryptHash pw

/-- Abstract model of `jwt.sign(payload, secret)`: a deterministic token
embedding the user id and the secret. -/
def jwtSign (uid : Nat) (secret : String) : String :=
  "jwt." ++ toString uid ++ "." ++ secret

/-- Request body of `POST /api/users/register`. -/
structure RegisterReq where
  name : String
  email : String
  password : String
  skills : String
  deriving Repr, DecidableEq

/-- Result of a legacy handler: an escaped exception or a response, plus
the final users table. -/
abbrev LegacyOut := Except String Response × List UserRow

/-- Legacy `registerUser`: hash the password, insert the row, and send
the full returned row — its whole body sits inside a try/catch that
answers 500 with the error message. -/
def registerUser (req : RegisterReq) (hashOut insertOut : PgOut) (newId : Nat)
    (tbl : List UserRow) : LegacyOut :=
  match hashOut with
  | .pthrow e => (.ok ⟨500, .errB e⟩, tbl)
  | .pok =>
    let hp := bcryptHash req.password
    match insertOut with
    | .pthrow e => (.ok ⟨500, .errB e⟩, tbl)
    | .pok =>
      let row : UserRow := ⟨newId, req.name, req.email, hp, req.skills⟩
      (.ok ⟨200, .userRowB row⟩, tbl ++ [row])

/-- Oracle for the legacy login: the SELECT query and the bcrypt compare,
each of which can only throw or succeed. -/
structure LoginLegacyOracle where
  queryOut : PgOut
  compareOut : PgOut
  deriving Repr, DecidableEq

/-- Legacy `loginUser`: SELECT by email, 400 when no row matches, bcrypt
compare, 400 on mismatch, else 200 with a signed token and the entire
stored row.  There is no try/catch: a rejection of either awaited call
escapes the handler. -/
def loginUser (email password : String) (ora : LoginLegacyOracle) (secret : String)
    (tbl : List UserRow) : LegacyOut :=
  match ora.queryOut with
  | .pthrow e => (.error e, tbl)
  | .pok =>
    match tbl.filter (fun u => u.email == email) with
    | [] => (.ok ⟨400, .msgB "No such user"⟩, tbl)
    | u :: _ =>
      match ora.compareOut with
      | .pthrow e => (.error e, tbl)
      | .pok =>
        if bcryptCompare password u.password then
          (.ok ⟨200, .tokenUserB (jwtSign u.id secret) u⟩, tbl)
        else
          (.ok ⟨400, .msgB "Wrong password"⟩, tbl)

/-- Projection of a user row to the fields selected by `GET /api/users`. -/
def publicProjection (u : UserRow) : PublicUser := ⟨u.id, u.name, u.skills⟩

/-- Legacy `getAllUsers`: SELECT id, name, skills in table order and send
the rows.  There is no try/catch: a rejected query escapes the handler. -/
def getAllUsers (queryOut : PgOut) (tbl : List UserRow) : LegacyOut :=
  match queryOut with
  | .pthrow e => (.error e, tbl)
  | .pok => (.ok ⟨200, .usersB (tbl.map publicProjection)⟩, tbl)

/-- A user row with its password removed, to state that a value does not
depend on password material. -/
def stripPassword (u : UserRow) : PublicUser × String := (publicProjection u, u.email)

/-! Helper lemmas. -/

theorem catchBoundary_ok (x : Except String Response) : ∃ r, catchBoundary x = .ok r := by
  cases x <;> exact ⟨_, rfl⟩

theorem signupHandler_fst (req : SignupReq) (ora : SignupOracle) (s : Store) :
    (signupHandler req ora s).1 = catchBoundary (signupInner req ora s).1 := rfl

theorem signupHandler_snd (req : SignupReq) (ora : SignupOracle) (s : Store) :
    (signupHandler req ora s).2 = (signupInner req ora s).2 := rfl

/-- C1: in the signup handler, whenever identity creation succeeds and the
profile insert fails with some store error, the handler issues a
compensating delete of the just-created identity, the response is the
same 400 carrying the profile-insert error whatever the outcome of that
delete (its failure is swallowed), never a success status, and when the
delete succeeds the identity is gone from the store. -/
theorem signup_compensating_delete (req : SignupReq) (ora : SignupOracle) (s : Store) (m : String)
    (hve : truthy req.email = true) (hvp : truthy req.password = true)
    (hvu : truthy req.username = true)
    (hc : ora.create = .ook) (hi : ora.insert = .oerr m) :
    (signupHandler req ora s).1 = .ok ⟨400, .errB m⟩ ∧
    Eff.deleteUserEff ora.newId ∈ (signupHandler req ora s).2.2 ∧
    (∀ d : Outcome, (signupHandler req { ora with delete := d } s).1 = .ok ⟨400, .errB m⟩) ∧
    (ora.delete = .ook →
      ∀ i ∈ (signupHandler req ora s).2.1.identities, i.id ≠ ora.newId) := by
  refine ⟨?_, ?_, ?_, ?_⟩
  · simp [signupHandler, signupInner, hve, hvp, hvu, hc, hi, catchBoundary]
  · simp [signupHandler, signupInner, hve, hvp, hvu, hc, hi]
  · intro d
    simp [signupHandler, signupInner, hve, hvp, hvu, hc, hi, catchBoundary]
  · intro hd i hmem
    simp only [signupHandler, signupInner, hve, hvp, hvu, hc, hi] at hmem
    simp [hd, deleteIdentity] at hmem
    intro hid
    exact absurd hid hmem.2

/-- The profile row the signup handler inserts for a request, keyed by
the identity id the store assigned. -/
def signupProfile (req : SignupReq) (ora : SignupOracle) : Profile :=
  ⟨ora.newId, some (req.username.getD ""), orNull req.full_name,
    orNull req.avatar_url, some "user", none⟩

/-- C2: for every signup input with truthy email, password and username on
which every store call succeeds, the handler answers 201 with the message,
the user object, the session and a profile whose id equals the returned
user id. -/
theorem signup_success_profile_id (req : SignupReq) (ora : SignupOracle) (s : Store)
    (hve : truthy req.email = true) (hvp : truthy req.password = true)
    (hvu : truthy req.username = true)
    (hc : ora.create = .ook) (hi : ora.insert = .ook)
    (hs : ora.signIn = .ook) (hf : ora.fetch = .ook) :
    (signupHandler req ora s).1 =
      .ok ⟨201, .signupB "user created" ora.newId (req.email.getD "") ora.session
        (some (signupProfile req ora))⟩ ∧
    (signupProfile req ora).id = ora.newId := by
  refine ⟨?_, rfl⟩
  simp [signupHandler, signupInner, hve, hvp, hvu, hc, hi, hs, hf, catchBoundary,
    findProfile, insertProfileRow, List.find?, signupProfile]

/-- Witness for C1 at a concrete signup request and store oracle. -/
theorem signup_compensating_delete_witness :
    (signupHandler ⟨some "a@x.com", some "pw123456", some "alice", none, none⟩
        ⟨.ook, "uid-1", .oerr "insert failed", .ook, .ook, some ⟨"at", "rt"⟩, .ook⟩
        ⟨[], []⟩).1 = .ok ⟨400, .errB "insert failed"⟩ :=
  (signup_compensating_delete _ _ _ _ (by decide) (by decide) (by decide) rfl rfl).1

/-- Witness for C2 at a concrete signup request and store oracle. -/
theorem signup_success_profile_id_witness :
    (signupHandler ⟨some "a@x.com", some "pw123456", some "alice", none, none⟩
        ⟨.ook, "uid-1", .ook, .ook, .ook, some ⟨"at", "rt"⟩, .ook⟩
        ⟨[], []⟩).1 =
      .ok ⟨201, .signupB "user created" "uid-1"
        ((some "a@x.com").getD "") (some ⟨"at", "rt"⟩)
        (some (signupProfile ⟨some "a@x.com", some "pw123456", some "alice", none, none⟩
          ⟨.ook, "uid-1", .ook, .ook, .ook, some ⟨"at", "rt"⟩, .ook⟩))⟩ ∧
    (signupProfile ⟨some "a@x.com", some "pw123456", some "alice", none, none⟩
      ⟨.ook, "uid-1", .ook, .ook, .ook, some ⟨"at", "rt"⟩, .ook⟩).id = "uid-1" :=
  signup_success_profile_id _ _ _ (by decide) (by decide) (by decide) rfl rfl rfl rfl

/-- C4: the login handler answers 400 when email or password is missing,
401 with no session in the body when the store rejects the credentials,
500 when sign-in succeeds without a usable user object, and otherwise 200
with the session and the profile. -/
theorem login_cases (req : LoginReq) (ora : LoginOracle) (s : Store)
    (hf : nothrow ora.fetch = true) :
    ((truthy req.email && truthy req.password) = false →
      (loginHandler req ora s).1 = .ok ⟨400, .errB "email and password required"⟩) ∧
    ((truthy req.email && truthy req.password) = true →
      (∀ m, ora.signIn = .oerr m →
        (loginHandler req ora s).1 = .ok ⟨401, .errB m⟩ ∧ hasSession (Body.errB m) = false) ∧
      (ora.signIn = .ook → truthy ora.userId = false →
        (loginHandler req ora s).1 = .ok ⟨500, .errB "could not get user after sign-in"⟩) ∧
      (ora.signIn = .ook → truthy ora.userId = true →
        ∃ pr, (loginHandler req ora s).1 = .ok ⟨200, .loginB ora.session pr⟩)) := by
  constructor
  · intro hv
    rcases Bool.and_eq_false_iff.mp hv with h | h <;>
      simp [loginHandler, loginInner, h, catchBoundary]
  · intro hv
    obtain ⟨hve, hvp⟩ : truthy req.email = true ∧ truthy req.password = true := by
      simpa using hv
    refine ⟨?_, ?_, ?_⟩
    · intro m hm
      exact ⟨by simp [loginHandler, loginInner, hve, hvp, hm, catchBoundary], rfl⟩
    · intro hok hu
      simp [loginHandler, loginInner, hve, hvp, hok, hu, catchBoundary]
    · intro hok hu
      rcases hfo : ora.fetch with e | m | _
      · rw [hfo] at hf; exact absurd hf (by simp [nothrow])
      · exact ⟨none, by simp [loginHandler, loginInner, hve, hvp, hok, hu, hfo, catchBoundary]⟩
      · exact ⟨findProfile s (ora.userId.getD ""),
          by simp [loginHandler, loginInner, hve, hvp, hok, hu, hfo, catchBoundary]⟩

/-- Witness for C4: a concrete rejected-credentials login answers 401
with an error body carrying no session. -/
theorem login_cases_witness :
    (loginHandler ⟨some "a@x.com", some "wrong"⟩
        ⟨.oerr "Invalid login credentials", none, none, .ook⟩ ⟨[], []⟩).1 =
      .ok ⟨401, .errB "Invalid login credentials"⟩ ∧
    hasSession (Body.errB "Invalid login credentials") = false :=
  ((login_cases ⟨some "a@x.com", some "wrong"⟩
      ⟨.oerr "Invalid login credentials", none, none, .ook⟩ ⟨[], []⟩
      (by decide)).2 (by decide)).1 "Invalid login credentials" rfl

/-- C5: the get-profile handler answers 401 without a usable bearer
token, 401 when the store cannot resolve the token to a user, 404 when
the profile fetch fails (store error or no matching row), and otherwise
200 with that user's profile. -/
theorem get_profile_cases (h : Option String) (ora : AuthedOracle) (s : Store) :
    (truthy (getBearerToken h) = false →
      (getProfileHandler h ora s).1 =
        .ok ⟨401, .errB "missing access token in Authorization header"⟩) ∧
    (truthy (getBearerToken h) = true →
      (∀ m, ora.getUser = .oerr m → (getProfileHandler h ora s).1 = .ok ⟨401, .errB m⟩) ∧
      (ora.getUser = .ook → ora.userId = none →
        (getProfileHandler h ora s).1 = .ok ⟨401, .errB "invalid token"⟩) ∧
      (∀ uid, ora.getUser = .ook → ora.userId = some uid →
        (∀ m, ora.fetch = .oerr m → (getProfileHandler h ora s).1 = .ok ⟨404, .errB m⟩) ∧
        (ora.fetch = .ook → findProfile s uid = none →
          (getProfileHandler h ora s).1 = .ok ⟨404, .errB "profile not found"⟩) ∧
        (∀ p, ora.fetch = .ook → findProfile s uid = some p →
          (getProfileHandler h ora s).1 = .ok ⟨200, .profileB (some p)⟩))) := by
  constructor
  · intro ht
    simp [getProfileHandler, getProfileInner, ht, catchBoundary]
  · intro ht
    refine ⟨?_, ?_, ?_⟩
    · intro m hm
      simp [getProfileHandler, getProfileInner, ht, hm, catchBoundary]
    · intro hok hu
      simp [getProfileHandler, getProfileInner, ht, hok, hu, catchBoundary]
    · intro uid hok hu
      refine ⟨?_, ?_, ?_⟩
      · intro m hm
        simp [getProfileHandler, getProfileInner, ht, hok, hu, hm, catchBoundary]
      · intro hfo hnone
        simp [getProfileHandler, getProfileInner, ht, hok, hu, hfo, hnone, catchBoundary]
      · intro p hfo hp
        simp [getProfileHandler, getProfileInner, ht, hok, hu, hfo, hp, catchBoundary]

/-- Witness for C5: a concrete authorized read of an existing profile
answers 200 with that profile. -/
theorem get_profile_cases_witness :
    (getProfileHandler (some "Bearer tok-1")
        ⟨.ook, some "uid-1", .ook⟩
        ⟨[], [⟨"uid-1", some "alice", none, none, some "user", none⟩]⟩).1 =
      .ok ⟨200, .profileB (some ⟨"uid-1", some "alice", none, none, some "user", none⟩)⟩ :=
  (((get_profile_cases (some "Bearer tok-1") ⟨.ook, some "uid-1", .ook⟩
      ⟨[], [⟨"uid-1", some "alice", none, none, some "user", none⟩]⟩).2
      (by decide)).2.2 "uid-1" rfl rfl).2.2
    ⟨"uid-1", some "alice", none, none, some "user", none⟩ rfl (by decide)

/-- C10: whenever the Authorization header does not split on single
spaces into exactly two parts with the first exactly the string Bearer,
token extraction yields null and both protected handlers answer 401
without issuing any store call at all. -/
theorem bearer_malformed_rejected (h : Option String) (oraG : AuthedOracle)
    (oraU : UpdateOracle) (body : List (String × Option String)) (now : String) (s : Store)
    (hm : ∀ t, jsSplitSpace (h.getD "") ≠ ["Bearer", t]) :
    getBearerToken h = none ∧
    (getProfileHandler h oraG s).1 =
      .ok ⟨401, .errB "missing access token in Authorization header"⟩ ∧
    (getProfileHandler h oraG s).2.2 = [] ∧
    (updateProfileHandler h body now oraU s).1 =
      .ok ⟨401, .errB "missing access token in Authorization header"⟩ ∧
    (updateProfileHandler h body now oraU s).2.2 = [] := by
  have gbt : getBearerToken h = none := by
    unfold getBearerToken
    rcases hsp : jsSplitSpace (h.getD "") with _ | ⟨a, _ | ⟨b, rest⟩⟩
    · rfl
    · rfl
    · rcases rest with _ | ⟨c, rest2⟩
      · have ha : a ≠ "Bearer" := by
          intro ha2
          exact hm b (by rw [hsp, ha2])
        simp [ha]
      · rfl
  refine ⟨gbt, ?_, ?_, ?_, ?_⟩
  · simp [getProfileHandler, getProfileInner, gbt, truthy, catchBoundary]
  · simp [getProfileHandler, getProfileInner, gbt, truthy]
  · simp [updateProfileHandler, updateProfileInner, gbt, truthy, catchBoundary]
  · simp [updateProfileHandler, updateProfileInner, gbt, truthy]

/-- Witness for C10: a lowercase bearer scheme is rejected with 401 and
no store call. -/
theorem bearer_malformed_rejected_witness :
    getBearerToken (some "bearer abc") = none ∧
    (getProfileHandler (some "bearer abc") ⟨.ook, some "uid-1", .ook⟩ ⟨[], []⟩).1 =
      .ok ⟨401, .errB "missing access token in Authorization header"⟩ ∧
    (getProfileHandler (some "bearer abc") ⟨.ook, some "uid-1", .ook⟩ ⟨[], []⟩).2.2 = [] ∧
    (updateProfileHandler (some "bearer abc") [("username", some "x")] "t0"
        ⟨.ook, some "uid-1", .ook, .ook⟩ ⟨[], []⟩).1 =
      .ok ⟨401, .errB "missing access token in Authorization header"⟩ ∧
    (updateProfileHandler (some "bearer abc") [("username", some "x")] "t0"
        ⟨.ook, some "uid-1", .ook, .ook⟩ ⟨[], []⟩).2.2 = [] :=
  bearer_malformed_rejected (some "bearer abc") ⟨.ook, some "uid-1", .ook⟩
    ⟨.ook, some "uid-1", .ook, .ook⟩ [("username", some "x")] "t0" ⟨[], []⟩
    (by
      intro t hc
      have h2 : (jsSplitSpace ((some "bearer abc").getD "")).head? = some "Bearer" := by
        rw [hc]; rfl
      exact absurd h2 (by decide))

/-- The full update object the handler persists: the allow-listed body
fields followed by the `updated_at` stamp. -/
def stampedUpdates (body : List (String × Option String)) (now : String) :
    List (String × Option String) :=
  buildUpdates body ++ [("updated_at", some now)]

theorem lookup_filter (al : List String) (l : List (String × Option String)) (k : String)
    (hk : al.contains k = true) :
    (l.filter (fun kv => al.contains kv.1)).lookup k = l.lookup k := by
  induction l with
  | nil => rfl
  | cons hd tl ih =>
    rcases hd with ⟨k1, v1⟩
    by_cases hp1 : al.contains k1 = true
    · rw [List.filter_cons, if_pos hp1, List.lookup_cons, List.lookup_cons]
      cases hkk : k == k1
      · exact ih
      · rfl
    · have hkk : (k == k1) = false := by
        rcases hbe : (k == k1) with _ | _
        · rfl
        · have hk1 : k = k1 := by simpa using hbe
          subst hk1
          exact absurd hk hp1
      rw [List.filter_cons, if_neg hp1, List.lookup_cons, ih, hkk]

theorem buildUpdates_filter (l : List (String × Option String)) :
    buildUpdates (l.filter (fun kv => allowedFields.contains kv.1)) = buildUpdates l := by
  unfold buildUpdates allowedFields
  simp only [List.filterMap_cons, List.filterMap_nil]
  rw [lookup_filter _ _ "username" (by decide), lookup_filter _ _ "full_name" (by decide),
    lookup_filter _ _ "avatar_url" (by decide), lookup_filter _ _ "role" (by decide)]

theorem lookup_isSome_of_mem_buildUpdates_keys (body : List (String × Option String))
    (k : String) (h : k ∈ (buildUpdates body).map Prod.fst) :
    (body.lookup k).isSome = true := by
  rcases List.mem_map.mp h with ⟨⟨k1, v1⟩, hmem, hfst⟩
  rcases List.mem_filterMap.mp hmem with ⟨a, _, hfa⟩
  rcases hlv : body.lookup a with _ | v
  · rw [hlv] at hfa; simp at hfa
  · rw [hlv] at hfa
    simp at hfa
    obtain ⟨ha, hv⟩ := hfa
    have hak : a = k := by rw [ha]; exact hfst
    rw [← hak, hlv]; rfl

theorem not_mem_buildUpdates_keys (body : List (String × Option String)) (k : String)
    (h : body.lookup k = none) : k ∉ (buildUpdates body).map Prod.fst := by
  intro hmem
  have := lookup_isSome_of_mem_buildUpdates_keys body k hmem
  rw [h] at this
  exact absurd this (by decide)

theorem setField_id (p : Profile) (k : String) (v : Option String) :
    (setField p k v).id = p.id := by
  unfold setField
  split_ifs <;> rfl

theorem applyUpdates_append (p : Profile) (l1 l2 : List (String × Option String)) :
    applyUpdates p (l1 ++ l2) = applyUpdates (applyUpdates p l1) l2 := by
  induction l1 generalizing p with
  | nil => rfl
  | cons hd tl ih => cases hd; simp [applyUpdates, ih]

theorem applyUpdates_id (p : Profile) (l : List (String × Option String)) :
    (applyUpdates p l).id = p.id := by
  induction l generalizing p with
  | nil => rfl
  | cons hd tl ih => cases hd; simp [applyUpdates, ih, setField_id]

theorem setField_username (p : Profile) (v : Option String) :
    setField p "username" v = { p with username := v } := rfl

theorem setField_full_name (p : Profile) (v : Option String) :
    setField p "full_name" v = { p with full_name := v } := rfl

theorem setField_avatar_url (p : Profile) (v : Option String) :
    setField p "avatar_url" v = { p with avatar_url := v } := rfl

theorem setField_role (p : Profile) (v : Option String) :
    setField p "role" v = { p with role := v } := rfl

theorem setField_updated_at (p : Profile) (v : Option String) :
    setField p "updated_at" v = { p with updated_at := v } := rfl

theorem fieldGet_setField_ne (p : Profile) (k k2 : String) (v : Option String) (h : k ≠ k2) :
    fieldGet k (setField p k2 v) = fieldGet k p := by
  by_cases h1 : k2 = "username"
  · subst h1; simp [setField_username, fieldGet, h]
  by_cases h2 : k2 = "full_name"
  · subst h2; simp [setField_full_name, fieldGet, h]
  by_cases h3 : k2 = "avatar_url"
  · subst h3; simp [setField_avatar_url, fieldGet, h]
  by_cases h4 : k2 = "role"
  · subst h4; simp [setField_role, fieldGet, h]
  by_cases h5 : k2 = "updated_at"
  · subst h5; simp [setField_updated_at, fieldGet, h]
  have hnone : setField p k2 v = p := by
    unfold setField; simp [h1, h2, h3, h4, h5]
  rw [hnone]

theorem fieldGet_applyUpdates_notMem (p : Profile) (l : List (String × Option String))
    (k : String) (h : k ∉ l.map Prod.fst) :
    fieldGet k (applyUpdates p l) = fieldGet k p := by
  induction l generalizing p with
  | nil => rfl
  | cons hd tl ih =>
    rcases hd with ⟨k1, v1⟩
    simp only [List.map_cons, List.mem_cons] at h
    push_neg at h
    show fieldGet k (applyUpdates (setField p k1 v1) tl) = fieldGet k p
    rw [ih _ h.2, fieldGet_setField_ne _ _ _ _ h.1]

theorem applyUpdates_stamp (q : Profile) (l : List (String × Option String)) (now : String) :
    (applyUpdates q (l ++ [("updated_at", some now)])).updated_at = some now := by
  simp [applyUpdates_append, applyUpdates, setField_updated_at]

theorem find?_update_list (l : List Profile) (uid : String) (u : List (String × Option String)) :
    (l.map (fun p => if p.id == uid then applyUpdates p u else p)).find?
        (fun p => p.id == uid) =
      (l.find? (fun p => p.id == uid)).map (fun p => applyUpdates p u) := by
  induction l with
  | nil => rfl
  | cons hd tl ih =>
    rw [List.map_cons]
    by_cases h : (hd.id == uid) = true
    · rw [if_pos h,
        List.find?_cons_of_pos (p := fun q : Profile => q.id == uid) _
          (by simpa [applyUpdates_id] using h),
        List.find?_cons_of_pos (p := fun q : Profile => q.id == uid) _ h]
      rfl
    · rw [if_neg h,
        List.find?_cons_of_neg (p := fun q : Profile => q.id == uid) _ h,
        List.find?_cons_of_neg (p := fun q : Profile => q.id == uid) _ h, ih]

theorem findProfile_update (s : Store) (uid : String) (u : List (String × Option String)) :
    findProfile (updateProfilesTable s uid u) uid =
      (findProfile s uid).map (fun p => applyUpdates p u) := by
  unfold findProfile updateProfilesTable
  exact find?_update_list s.profiles uid u

theorem updateProfileHandler_state (h : Option String) (body : List (String × Option String))
    (now : String) (ora : UpdateOracle) (s : Store) (uid : String)
    (htok : truthy (getBearerToken h) = true) (hg : ora.getUser = .ook)
    (hu : ora.userId = some uid) (hne : buildUpdates body ≠ [])
    (hok : ora.update = .ook) :
    (updateProfileHandler h body now ora s).2.1 =
      updateProfilesTable s uid (stampedUpdates body now) := by
  have hemp : (buildUpdates body).isEmpty = false := by
    cases hb : buildUpdates body with
    | nil => exact absurd hb hne
    | cons a l => rfl
  rcases hfo : ora.fetch with e | m | _ <;>
    simp [updateProfileHandler, updateProfileInner, htok, hg, hu, hemp, hok, hfo,
      stampedUpdates]

/-- C3: the update-profile handler ignores every body field outside the
allow-list (running it on the body and on the body restricted to the
allow-list is the same computation), answers 400 and leaves the store
unchanged when no allow-listed field is present, and on a successful
apply the stored row receives the `updated_at` stamp while its id and
every allow-listed field absent from the body stay unchanged. -/
theorem update_profile_allowlist (h : Option String) (body : List (String × Option String))
    (now : String) (ora : UpdateOracle) (s : Store) (uid : String) (p : Profile)
    (htok : truthy (getBearerToken h) = true) (hg : ora.getUser = .ook)
    (hu : ora.userId = some uid) (hp : findProfile s uid = some p) :
    (updateProfileHandler h body now ora s =
      updateProfileHandler h (body.filter (fun kv => allowedFields.contains kv.1)) now ora s) ∧
    (buildUpdates body = [] →
      (updateProfileHandler h body now ora s).1 =
        .ok ⟨400, .errB "no updatable fields provided"⟩ ∧
      (updateProfileHandler h body now ora s).2.1 = s) ∧
    (buildUpdates body ≠ [] → ora.update = .ook →
      findProfile (updateProfileHandler h body now ora s).2.1 uid =
        some (applyUpdates p (stampedUpdates body now)) ∧
      (applyUpdates p (stampedUpdates body now)).updated_at = some now ∧
      (applyUpdates p (stampedUpdates body now)).id = p.id ∧
      ∀ k, k ∈ allowedFields → body.lookup k = none →
        fieldGet k (applyUpdates p (stampedUpdates body now)) = fieldGet k p) := by
  refine ⟨?_, ?_, ?_⟩
  · simp only [updateProfileHandler, updateProfileInner, buildUpdates_filter]
  · intro hb
    constructor <;>
      simp [updateProfileHandler, updateProfileInner, htok, hg, hu, hb, catchBoundary]
  · intro hne hok
    refine ⟨?_, applyUpdates_stamp p _ now, applyUpdates_id p _, ?_⟩
    · rw [updateProfileHandler_state h body now ora s uid htok hg hu hne hok,
        findProfile_update, hp]
      rfl
    · intro k hk hkn
      apply fieldGet_applyUpdates_notMem
      rw [stampedUpdates, List.map_append]
      intro hmem
      rcases List.mem_append.mp hmem with hm1 | hm2
      · exact absurd hm1 (not_mem_buildUpdates_keys body k hkn)
      · have : k = "updated_at" := by simpa using hm2
        subst this
        simp [allowedFields] at hk

/-- Witness for C3: an update whose body holds one unlisted field and one
allow-listed field computes exactly as the allow-list-filtered body. -/
theorem update_profile_allowlist_witness :
    updateProfileHandler (some "Bearer tok-1")
        [("email", some "evil@x.com"), ("full_name", some "Alice A")] "t1"
        ⟨.ook, some "uid-1", .ook, .ook⟩
        ⟨[], [⟨"uid-1", some "alice", none, none, some "user", none⟩]⟩ =
      updateProfileHandler (some "Bearer tok-1")
        ([("email", some "evil@x.com"), ("full_name", some "Alice A")].filter
          (fun kv => allowedFields.contains kv.1)) "t1"
        ⟨.ook, some "uid-1", .ook, .ook⟩
        ⟨[], [⟨"uid-1", some "alice", none, none, some "user", none⟩]⟩ :=
  (update_profile_allowlist (some "Bearer tok-1")
    [("email", some "evil@x.com"), ("full_name", some "Alice A")] "t1"
    ⟨.ook, some "uid-1", .ook, .ook⟩
    ⟨[], [⟨"uid-1", some "alice", none, none, some "user", none⟩]⟩
    "uid-1" ⟨"uid-1", some "alice", none, none, some "user", none⟩
    (by decide) rfl rfl (by decide)).1

theorem applyUpdates_stable (p : Profile) (body : List (String × Option String))
    (now1 now2 : String) :
    (applyUpdates (applyUpdates p (stampedUpdates body now1))
        (stampedUpdates body now2)).username =
      (applyUpdates p (stampedUpdates body now1)).username ∧
    (applyUpdates (applyUpdates p (stampedUpdates body now1))
        (stampedUpdates body now2)).full_name =
      (applyUpdates p (stampedUpdates body now1)).full_name ∧
    (applyUpdates (applyUpdates p (stampedUpdates body now1))
        (stampedUpdates body now2)).avatar_url =
      (applyUpdates p (stampedUpdates body now1)).avatar_url ∧
    (applyUpdates (applyUpdates p (stampedUpdates body now1))
        (stampedUpdates body now2)).role =
      (applyUpdates p (stampedUpdates body now1)).role := by
  rcases h1 : body.lookup "username" with _ | v1 <;>
  rcases h2 : body.lookup "full_name" with _ | v2 <;>
  rcases h3 : body.lookup "avatar_url" with _ | v3 <;>
  rcases h4 : body.lookup "role" with _ | v4 <;>
    simp [stampedUpdates, buildUpdates, allowedFields, h1, h2, h3, h4, applyUpdates,
      setField_username, setField_full_name, setField_avatar_url, setField_role,
      setField_updated_at]

/-- C8: repeating the same successful update-profile call twice leaves
the stored allow-listed field values equal to those after the first call,
with only the `updated_at` stamp differing between the two runs. -/
theorem update_profile_idempotent (h : Option String) (body : List (String × Option String))
    (now1 now2 : String) (ora : UpdateOracle) (s : Store) (uid : String) (p : Profile)
    (htok : truthy (getBearerToken h) = true) (hg : ora.getUser = .ook)
    (hu : ora.userId = some uid) (hp : findProfile s uid = some p)
    (hne : buildUpdates body ≠ []) (hok : ora.update = .ook) :
    findProfile (updateProfileHandler h body now1 ora s).2.1 uid =
      some (applyUpdates p (stampedUpdates body now1)) ∧
    findProfile (updateProfileHandler h body now2 ora
        (updateProfileHandler h body now1 ora s).2.1).2.1 uid =
      some (applyUpdates (applyUpdates p (stampedUpdates body now1))
        (stampedUpdates body now2)) ∧
    (applyUpdates p (stampedUpdates body now1)).updated_at = some now1 ∧
    (applyUpdates (applyUpdates p (stampedUpdates body now1))
        (stampedUpdates body now2)).updated_at = some now2 ∧
    (applyUpdates (applyUpdates p (stampedUpdates body now1))
        (stampedUpdates body now2)).id =
      (applyUpdates p (stampedUpdates body now1)).id ∧
    (applyUpdates (applyUpdates p (stampedUpdates body now1))
        (stampedUpdates body now2)).username =
      (applyUpdates p (stampedUpdates body now1)).username ∧
    (applyUpdates (applyUpdates p (stampedUpdates body now1))
        (stampedUpdates body now2)).full_name =
      (applyUpdates p (stampedUpdates body now1)).full_name ∧
    (applyUpdates (applyUpdates p (stampedUpdates body now1))
        (stampedUpdates body now2)).avatar_url =
      (applyUpdates p (stampedUpdates body now1)).avatar_url ∧
    (applyUpdates (applyUpdates p (stampedUpdates body now1))
        (stampedUpdates body now2)).role =
      (applyUpdates p (stampedUpdates body now1)).role := by
  have hst1 : (updateProfileHandler h body now1 ora s).2.1 =
      updateProfilesTable s uid (stampedUpdates body now1) :=
    updateProfileHandler_state h body now1 ora s uid htok hg hu hne hok
  have hfp1 : findProfile (updateProfileHandler h body now1 ora s).2.1 uid =
      some (applyUpdates p (stampedUpdates body now1)) := by
    rw [hst1, findProfile_update, hp]; rfl
  have hst2 : (updateProfileHandler h body now2 ora
        (updateProfileHandler h body now1 ora s).2.1).2.1 =
      updateProfilesTable (updateProfileHandler h body now1 ora s).2.1 uid
        (stampedUpdates body now2) :=
    updateProfileHandler_state h body now2 ora _ uid htok hg hu hne hok
  have hfp2 : findProfile (updateProfileHandler h body now2 ora
        (updateProfileHandler h body now1 ora s).2.1).2.1 uid =
      some (applyUpdates (applyUpdates p (stampedUpdates body now1))
        (stampedUpdates body now2)) := by
    rw [hst2, findProfile_update, hfp1]; rfl
  obtain ⟨hus, hfn, hav, hro⟩ := applyUpdates_stable p body now1 now2
  exact ⟨hfp1, hfp2, applyUpdates_stamp p (buildUpdates body) now1,
    applyUpdates_stamp _ (buildUpdates body) now2, applyUpdates_id _ _, hus, hfn, hav, hro⟩

/-- Witness for C8 at a concrete token, body and store. -/
theorem update_profile_idempotent_witness :
    findProfile (updateProfileHandler (some "Bearer tok-1") [("full_name", some "Alice A")] "t1"
        ⟨.ook, some "uid-1", .ook, .ook⟩
        ⟨[], [⟨"uid-1", some "alice", none, none, some "user", none⟩]⟩).2.1 "uid-1" =
      some (applyUpdates ⟨"uid-1", some "alice", none, none, some "user", none⟩
        (stampedUpdates [("full_name", some "Alice A")] "t1")) ∧
    findProfile (updateProfileHandler (some "Bearer tok-1") [("full_name", some "Alice A")] "t2"
        ⟨.ook, some "uid-1", .ook, .ook⟩
        (updateProfileHandler (some "Bearer tok-1") [("full_name", some "Alice A")] "t1"
          ⟨.ook, some "uid-1", .ook, .ook⟩
          ⟨[], [⟨"uid-1", some "alice", none, none, some "user", none⟩]⟩).2.1).2.1 "uid-1" =
      some (applyUpdates
        (applyUpdates ⟨"uid-1", some "alice", none, none, some "user", none⟩
          (stampedUpdates [("full_name", some "Alice A")] "t1"))
        (stampedUpdates [("full_name", some "Alice A")] "t2")) ∧
    (applyUpdates ⟨"uid-1", some "alice", none, none, some "user", none⟩
        (stampedUpdates [("full_name", some "Alice A")] "t1")).updated_at = some "t1" ∧
    (applyUpdates
        (applyUpdates ⟨"uid-1", some "alice", none, none, some "user", none⟩
          (stampedUpdates [("full_name", some "Alice A")] "t1"))
        (stampedUpdates [("full_name", some "Alice A")] "t2")).updated_at = some "t2" ∧
    (applyUpdates
        (applyUpdates ⟨"uid-1", some "alice", none, none, some "user", none⟩
          (stampedUpdates [("full_name", some "Alice A")] "t1"))
        (stampedUpdates [("full_name", some "Alice A")] "t2")).id =
      (applyUpdates ⟨"uid-1", some "alice", none, none, some "user", none⟩
        (stampedUpdates [("full_name", some "Alice A")] "t1")).id ∧
    (applyUpdates
        (applyUpdates ⟨"uid-1", some "alice", none, none, some "user", none⟩
          (stampedUpdates [("full_name", some "Alice A")] "t1"))
        (stampedUpdates [("full_name", some "Alice A")] "t2")).username =
      (applyUpdates ⟨"uid-1", some "alice", none, none, some "user", none⟩
        (stampedUpdates [("full_name", some "Alice A")] "t1")).username ∧
    (applyUpdates
        (applyUpdates ⟨"uid-1", some "alice", none, none, some "user", none⟩
          (stampedUpdates [("full_name", some "Alice A")] "t1"))
        (stampedUpdates [("full_name", some "Alice A")] "t2")).full_name =
      (applyUpdates ⟨"uid-1", some "alice", none, none, some "user", none⟩
        (stampedUpdates [("full_name", some "Alice A")] "t1")).full_name ∧
    (applyUpdates
        (applyUpdates ⟨"uid-1", some "alice", none, none, some "user", none⟩
          (stampedUpdates [("full_name", some "Alice A")] "t1"))
        (stampedUpdates [("full_name", some "Alice A")] "t2")).avatar_url =
      (applyUpdates ⟨"uid-1", some "alice", none, none, some "user", none⟩
        (stampedUpdates [("full_name", some "Alice A")] "t1")).avatar_url ∧
    (applyUpdates
        (applyUpdates ⟨"uid-1", some "alice", none, none, some "user", none⟩
          (stampedUpdates [("full_name", some "Alice A")] "t1"))
        (stampedUpdates [("full_name", some "Alice A")] "t2")).role =
      (applyUpdates ⟨"uid-1", some "alice", none, none, some "user", none⟩
        (stampedUpdates [("full_name", some "Alice A")] "t1")).role :=
  update_profile_idempotent (some "Bearer tok-1") [("full_name", some "Alice A")] "t1" "t2"
    ⟨.ook, some "uid-1", .ook, .ook⟩
    ⟨[], [⟨"uid-1", some "alice", none, none, some "user", none⟩]⟩
    "uid-1" ⟨"uid-1", some "alice", none, none, some "user", none⟩
    (by decide) rfl rfl (by decide) (by decide) rfl

/-- C6 counterexample: the legacy login handler has no try/catch, so a
rejected database query escapes the request boundary as an uncaught
exception instead of becoming a JSON error response. -/
theorem legacy_login_uncaught_exception :
    (loginUser "a@x.com" "pw123456" ⟨.pthrow "connection refused", .pok⟩ "secret" []).1 =
      .error "connection refused" := rfl

/-- C6 (amended): the four store-backed auth handlers and the legacy
register handler convert every escaped error into a JSON response at
their own boundary, but the legacy login and list-users handlers do not:
there are store-call rejections that escape them uncaught. -/
theorem handler_error_boundaries :
    (∀ (req : SignupReq) (ora : SignupOracle) (s : Store),
      ∃ r, (signupHandler req ora s).1 = .ok r) ∧
    (∀ (req : LoginReq) (ora : LoginOracle) (s : Store),
      ∃ r, (loginHandler req ora s).1 = .ok r) ∧
    (∀ (h : Option String) (ora : AuthedOracle) (s : Store),
      ∃ r, (getProfileHandler h ora s).1 = .ok r) ∧
    (∀ (h : Option String) (body : List (String × Option String)) (now : String)
      (ora : UpdateOracle) (s : Store),
      ∃ r, (updateProfileHandler h body now ora s).1 = .ok r) ∧
    (∀ (req : RegisterReq) (hashOut insertOut : PgOut) (newId : Nat) (tbl : List UserRow),
      ∃ r, (registerUser req hashOut insertOut newId tbl).1 = .ok r) ∧
    (∃ email pw ora secret tbl msg,
      (loginUser email pw ora secret tbl).1 = .error msg) ∧
    (∃ q tbl msg, (getAllUsers q tbl).1 = .error msg) := by
  refine ⟨?_, ?_, ?_, ?_, ?_, ?_, ?_⟩
  · intro req ora s
    exact catchBoundary_ok (signupInner req ora s).1
  · intro req ora s
    exact catchBoundary_ok (loginInner req ora s).1
  · intro h ora s
    exact catchBoundary_ok (getProfileInner h ora s).1
  · intro h body now ora s
    exact catchBoundary_ok (updateProfileInner h body now ora s).1
  · intro req hashOut insertOut newId tbl
    cases hashOut <;> cases insertOut <;> exact ⟨_, rfl⟩
  · exact ⟨"a@x.com", "pw123456", ⟨.pthrow "connection refused", .pok⟩, "secret", [],
      "connection refused", rfl⟩
  · exact ⟨.pthrow "connection refused", [], "connection refused", rfl⟩

/-- C7: for every state of the users table, a responding list-users query
answers 200 with the rows projected, in table order, to exactly id, name
and skills, and the response does not depend on any password material
stored in the table. -/
theorem getAllUsers_contract (tbl : List UserRow) :
    (getAllUsers .pok tbl).1 = .ok ⟨200, .usersB (tbl.map publicProjection)⟩ ∧
    ∀ tbl2 : List UserRow, tbl.map stripPassword = tbl2.map stripPassword →
      (getAllUsers .pok tbl).1 = (getAllUsers .pok tbl2).1 := by
  refine ⟨rfl, ?_⟩
  intro tbl2 hstrip
  have hproj : tbl.map publicProjection = tbl2.map publicProjection := by
    have h1 : (tbl.map stripPassword).map Prod.fst =
        (tbl2.map stripPassword).map Prod.fst := by rw [hstrip]
    rw [List.map_map, List.map_map] at h1
    exact h1
  simp [getAllUsers, hproj]

/-- Witness for C7: two concrete tables differing only in their password
hashes produce identical list-users responses. -/
theorem getAllUsers_contract_witness :
    (getAllUsers .pok [⟨1, "alice", "a@x.com", "hashA", "go"⟩]).1 =
      (getAllUsers .pok [⟨1, "alice", "a@x.com", "hashB", "go"⟩]).1 :=
  (getAllUsers_contract [⟨1, "alice", "a@x.com", "hashA", "go"⟩]).2
    [⟨1, "alice", "a@x.com", "hashB", "go"⟩] (by decide)

/-- C9: a successful legacy login returns the entire stored user row,
bcrypt password hash included, as the user object of the 200 response. -/
theorem legacy_login_returns_full_row (email pw secret : String) (u : UserRow)
    (tbl rest : List UserRow) (ora : LoginLegacyOracle)
    (hq : ora.queryOut = .pok) (hc : ora.compareOut = .pok)
    (hfil : tbl.filter (fun r => r.email == email) = u :: rest)
    (hpw : u.password = bcryptHash pw) :
    (loginUser email pw ora secret tbl).1 =
      .ok ⟨200, .tokenUserB (jwtSign u.id secret) u⟩ ∧
    bodyUserPassword (Body.tokenUserB (jwtSign u.id secret) u) = some (bcryptHash pw) := by
  constructor
  · simp [loginUser, hq, hc, hfil, bcryptCompare, hpw]
  · simp [bodyUserPassword, hpw]

/-- Witness for C9 at a concrete table holding one registered user. -/
theorem legacy_login_returns_full_row_witness :
    (loginUser "a@x.com" "pw123456" ⟨.pok, .pok⟩ "secret"
        [⟨1, "alice", "a@x.com", bcryptHash "pw123456", "go"⟩]).1 =
      .ok ⟨200, .tokenUserB (jwtSign 1 "secret")
        ⟨1, "alice", "a@x.com", bcryptHash "pw123456", "go"⟩⟩ ∧
    bodyUserPassword (Body.tokenUserB (jwtSign 1 "secret")
        ⟨1, "alice", "a@x.com", bcryptHash "pw123456", "go"⟩) =
      some (bcryptHash "pw123456") :=
  legacy_login_returns_full_row "a@x.com" "pw123456" "secret"
    ⟨1, "alice", "a@x.com", bcryptHash "pw123456", "go"⟩
    [⟨1, "alice", "a@x.com", bcryptHash "pw123456", "go"⟩] [] ⟨.pok, .pok⟩
    rfl rfl (by decide) rfl

end SkillSwap
